import Mathlib

/-!
Verification of the anonymous-identity plus like-toggle subsystem.

Shallow embedding of the core of the Grand River Analytics site:
* the anonymous identity assigner (`before_request` / `persist_anon_user_id`
  in `src/app.py`),
* the like-toggle endpoint (`post_like_api` in `src/app.py`),
* the public post page gate (`post_detail` in `src/app.py`),
* the `post_likes` table with its `UNIQUE(post_id, user_id)` constraint
  (`init_db` in `src/utils/db.py`).

The SQLite store is modelled as lists of rows; an `INSERT` into
`post_likes` fails with an integrity error exactly when a row with the
same `(post_id, user_id)` pair already exists, and the endpoint catches
that error and treats it as success, exactly as the source does.
-/

set_option autoImplicit false

namespace GRA

/-- A row of the `posts` table, restricted to the columns the core reads:
`id`, `slug` (UNIQUE in the schema) and `published`. -/
structure Post where
  id : Nat
  slug : String
  published : Bool
  deriving DecidableEq

/-- A row of the `post_likes` table (`init_db` in `src/utils/db.py`):
`post_id`, `user_id`, `created_at`; the pair `(post_id, user_id)` is
declared UNIQUE. -/
structure Like where
  post_id : Nat
  user_id : String
  created_at : String
  deriving DecidableEq

/-- The persistent store: the `posts` and `post_likes` tables. -/
structure Store where
  posts : List Post
  likes : List Like
  deriving DecidableEq

/-- Query `SELECT 1 FROM post_likes WHERE post_id = ? AND user_id = ?`:
does a like row for the pair exist? -/
def likeRowExists (likes : List Like) (pid : Nat) (uid : String) : Bool :=
  likes.any fun l => l.post_id == pid && l.user_id == uid

/-- Query `SELECT COUNT(*) FROM post_likes WHERE post_id = ?`. -/
def countLikes (likes : List Like) (pid : Nat) : Nat :=
  likes.countP fun l => l.post_id == pid

/-- Number of rows for one `(post_id, user_id)` pair. -/
def countPair (likes : List Like) (pid : Nat) (uid : String) : Nat :=
  likes.countP fun l => l.post_id == pid && l.user_id == uid

/-- Query `SELECT id, slug FROM posts WHERE slug = ?`: first row matching the
slug (the schema makes `slug` UNIQUE, so at most one matches). -/
def findPostBySlug (posts : List Post) (slug : String) : Option Post :=
  posts.find? fun p => p.slug == slug

/-- The characters Python's `str.strip()` removes, for ASCII input:
space, tab, newline, carriage return, vertical tab, form feed. -/
def isPySpace (c : Char) : Bool :=
  c = ' ' || c = '\t' || c = '\n' || c = '\r' ||
    c = Char.ofNat 11 || c = Char.ofNat 12

/-- Python `str.strip()` (over the ASCII whitespace set). -/
def pyStrip (s : String) : String :=
  ⟨((s.data.dropWhile isPySpace).reverse.dropWhile isPySpace).reverse⟩

/-- Python `str.lower()` (over the ASCII range, which covers every
string the endpoint compares against). -/
def pyLower (s : String) : String :=
  ⟨s.data.map Char.toLower⟩

/-- Expression `(request.form.get("action") or "toggle").strip().lower()` from
`post_like_api`: a missing or empty form field defaults to `"toggle"`
(Python `or` treats the empty string as falsy), then the value is
stripped and lower-cased. -/
def normalizeAction (formAction : Option String) : String :=
  let raw := match formAction with
    | none => "toggle"
    | some a => if a = "" then "toggle" else a
  pyLower (pyStrip raw)

/-- The effective action after toggle resolution: `"toggle"` becomes
`"unlike"` when a like row for the pair exists, else `"like"`. -/
def effectiveAction (likes : List Like) (pid : Nat) (uid : String)
    (formAction : Option String) : String :=
  let action := normalizeAction formAction
  if action = "toggle" then
    if likeRowExists likes pid uid then "unlike" else "like"
  else action

/-- The error conditions of `post_like_api`: `abort(404)` on an unknown
slug, `abort(400)` on a missing visitor id, `abort(400)` on an
unrecognized action. -/
inductive LikeError where
  | notFound
  | missingUserId
  | invalidAction
  deriving DecidableEq

/-- The JSON body `{"liked": ..., "count": ...}` returned on success. -/
structure LikeResponse where
  liked : Bool
  count : Nat
  deriving DecidableEq

/-- The `INSERT INTO post_likes ...` wrapped in
`try ... except sqlite3.IntegrityError: pass`: the UNIQUE constraint
makes the insert fail exactly when a row with the same
`(post_id, user_id)` pair exists, and the endpoint treats the conflict
as success, leaving the table unchanged. -/
def insertLikeRow (likes : List Like) (pid : Nat) (uid : String)
    (ts : String) : List Like :=
  if likeRowExists likes pid uid then likes
  else likes ++ [⟨pid, uid, ts⟩]

/-- Statement `DELETE FROM post_likes WHERE post_id = ? AND user_id = ?`. -/
def deleteLikeRows (likes : List Like) (pid : Nat) (uid : String) :
    List Like :=
  likes.filter fun l => !(l.post_id == pid && l.user_id == uid)

/-- Route `post_like_api` from `src/app.py` (lines 410-453).  Resolves the
post by slug (404 when absent), normalizes the action, requires a
non-empty visitor id (400 when missing), resolves `toggle` against the
current pair state (`effectiveAction`), then either inserts a like row
(`insertLikeRow`, integrity conflict treated as success) or deletes the
pair rows (`deleteLikeRows`), and finally recounts the rows for the
post on the mutated table. -/
def post_like_api (s : Store) (slug : String) (formAction : Option String)
    (anonUserId : Option String) (now : String) :
    Except LikeError (Store × LikeResponse) :=
  match findPostBySlug s.posts slug with
  | none => .error .notFound
  | some row =>
    match anonUserId with
    | none => .error .missingUserId
    | some user_id =>
      if user_id = "" then .error .missingUserId
      else if effectiveAction s.likes row.id user_id formAction = "like" then
        .ok ({ s with likes := insertLikeRow s.likes row.id user_id now },
          { liked := true,
            count := countLikes (insertLikeRow s.likes row.id user_id now) row.id })
      else if effectiveAction s.likes row.id user_id formAction = "unlike" then
        .ok ({ s with likes := deleteLikeRows s.likes row.id user_id },
          { liked := false,
            count := countLikes (deleteLikeRows s.likes row.id user_id) row.id })
      else .error .invalidAction

/-- The base64url alphabet used by `secrets.token_urlsafe`:
index 0-25 map to `A`-`Z`, 26-51 to `a`-`z`, 52-61 to `0`-`9`,
62 to `-` and 63 to `_`. -/
def b64urlChar (n : Nat) : Char :=
  if n < 26 then Char.ofNat (65 + n)
  else if n < 52 then Char.ofNat (97 + (n - 26))
  else if n < 62 then Char.ofNat (48 + (n - 52))
  else if n = 62 then '-' else '_'

/-- Unpadded base64url encoding of a byte list: groups of three bytes
become four characters; a trailing byte becomes two characters and a
trailing pair becomes three (the `=` padding is stripped, as
`secrets.token_urlsafe` does). -/
def b64urlEncode : List Nat → List Char
  | [] => []
  | [b1] => [b64urlChar (b1 / 4), b64urlChar (b1 % 4 * 16)]
  | [b1, b2] => [b64urlChar (b1 / 4), b64urlChar (b1 % 4 * 16 + b2 / 16),
      b64urlChar (b2 % 16 * 4)]
  | b1 :: b2 :: b3 :: rest =>
    b64urlChar (b1 / 4) :: b64urlChar (b1 % 4 * 16 + b2 / 16) ::
      b64urlChar (b2 % 16 * 4 + b3 / 64) :: b64urlChar (b3 % 64) ::
        b64urlEncode rest

/-- Function `secrets.token_urlsafe` applied to the bytes drawn from the
operating system's random source: unpadded base64url text.  The random
draw itself is modelled as the explicit `bytes` argument; `before_request`
passes a draw of 16 bytes. -/
def token_urlsafe (bytes : List Nat) : String :=
  ⟨b64urlEncode bytes⟩

/-- Result of the identity assigner for one request: the visitor id
available as `g.anon_user_id`, and `g._set_gra_uid` when a fresh id was
generated and must be persisted. -/
structure IdentityResult where
  anonUserId : String
  setGraUid : Option String
  deriving DecidableEq

/-- The identity part of `before_request` in `src/app.py` (lines
115-119): read the `gra_uid` cookie; when it is missing or empty
(`if not uid`), generate `secrets.token_urlsafe(16)` on the 16 random
bytes `randBytes` and mark it for persistence. -/
def before_request (cookieGraUid : Option String) (randBytes : List Nat) :
    IdentityResult :=
  let uid := cookieGraUid.getD ""
  if uid = "" then
    let fresh := token_urlsafe randBytes
    { anonUserId := fresh, setGraUid := some fresh }
  else
    { anonUserId := uid, setGraUid := none }

/-- The attributes `response.set_cookie` is called with. -/
structure CookieAttrs where
  name : String
  value : String
  maxAge : Nat
  httponly : Bool
  samesite : String
  secure : Bool
  deriving DecidableEq

/-- Hook `persist_anon_user_id` in `src/app.py` (lines 121-133): when
`g._set_gra_uid` is set, the response sets the `gra_uid` cookie with
`max_age = 60 * 60 * 24 * 365 * 2`, `httponly = True`,
`samesite = "Lax"`, `secure = request.is_secure`. -/
def persist_anon_user_id (setGraUid : Option String) (isSecure : Bool) :
    Option CookieAttrs :=
  setGraUid.map fun uid =>
    { name := "gra_uid", value := uid, maxAge := 60 * 60 * 24 * 365 * 2,
      httponly := true, samesite := "Lax", secure := isSecure }

/-- The visibility gate of `post_detail` in `src/app.py` (lines
347-354): resolve the post by slug, `abort(404)` when absent, then
`abort(404)` when the post is unpublished and the session is not
admin-authenticated; otherwise the page renders with the like count and
the visitor's liked flag. -/
def post_detail (s : Store) (slug : String) (adminAuthenticated : Bool)
    (anonUserId : String) : Option (Post × Nat × Bool) :=
  match findPostBySlug s.posts slug with
  | none => none
  | some row =>
    if !row.published && !adminAuthenticated then none
    else some (row, countLikes s.likes row.id,
        likeRowExists s.likes row.id anonUserId)

/-- One full request to `POST /api/post/<slug>/like`: Flask runs
`before_request` first, so the visitor id handed to `post_like_api` is
the one the identity assigner resolved; the `after_request` hook then
decides the `Set-Cookie` header. -/
def handle_like_request (s : Store) (slug : String)
    (cookieGraUid : Option String) (randBytes : List Nat)
    (formAction : Option String) (isSecure : Bool) (now : String) :
    Except LikeError (Store × LikeResponse) × Option CookieAttrs :=
  let ident := before_request cookieGraUid randBytes
  (post_like_api s slug formAction (some ident.anonUserId) now,
    persist_anon_user_id ident.setGraUid isSecure)

/-- One ToggleLike request in a sequence: its slug, form action, visitor
id and timestamp. -/
structure ToggleOp where
  slug : String
  formAction : Option String
  anonUserId : Option String
  now : String
  deriving DecidableEq

/-- The store after one call of `post_like_api`: a request that aborts
leaves the tables untouched. -/
def storeAfterLike (s : Store) (op : ToggleOp) : Store :=
  match post_like_api s op.slug op.formAction op.anonUserId op.now with
  | .ok (s1, _) => s1
  | .error _ => s

/-- The store after a sequence of ToggleLike requests. -/
def runToggles (s : Store) : List ToggleOp → Store
  | [] => s
  | op :: rest => runToggles (storeAfterLike s op) rest

/-- Membership in the base64url alphabet. -/
def isUrlSafeChar (c : Char) : Bool :=
  ('A' ≤ c && c ≤ 'Z') || ('a' ≤ c && c ≤ 'z') ||
    ('0' ≤ c && c ≤ '9') || c = '-' || c = '_'

/-- The `post_likes` table as observed after one full request to the
like endpoint: the mutated table on success, the untouched table when
the request aborted. -/
def likesAfterRequest (s : Store) (slug : String)
    (cookieGraUid : Option String) (randBytes : List Nat)
    (formAction : Option String) (isSecure : Bool) (now : String) :
    List Like :=
  match (handle_like_request s slug cookieGraUid randBytes formAction
      isSecure now).1 with
  | .ok (s1, _) => s1.likes
  | .error _ => s.likes

/-! The uniqueness invariant of the post_likes table. -/

/-- The `UNIQUE(post_id, user_id)` constraint as a predicate on the
table: no two rows share the `(post_id, user_id)` pair. -/
def PairUnique (likes : List Like) : Prop :=
  likes.Pairwise fun a b => ¬(a.post_id = b.post_id ∧ a.user_id = b.user_id)

instance (likes : List Like) : Decidable (PairUnique likes) :=
  List.instDecidablePairwise likes

theorem likeRowExists_eq_false_iff {likes : List Like} {pid : Nat}
    {uid : String} :
    likeRowExists likes pid uid = false ↔
      ∀ l ∈ likes, l.post_id = pid → l.user_id ≠ uid := by
  simp [likeRowExists]

/-- A table satisfying the constraint holds at most one row per pair. -/
theorem countPair_le_one {likes : List Like} (pid : Nat) (uid : String)
    (h : PairUnique likes) : countPair likes pid uid ≤ 1 := by
  induction likes with
  | nil => simp [countPair]
  | cons hd tl ih =>
    unfold PairUnique at h
    rw [List.pairwise_cons] at h
    by_cases hm : (hd.post_id == pid && hd.user_id == uid) = true
    · have hz : (tl.countP fun l => l.post_id == pid && l.user_id == uid) = 0 := by
        rw [List.countP_eq_zero]
        intro a ha
        simp only [Bool.and_eq_true, beq_iff_eq] at hm ⊢
        intro hcontra
        exact h.1 a ha ⟨hm.1.trans hcontra.1.symm, hm.2.trans hcontra.2.symm⟩
      simp [countPair, List.countP_cons, hm, hz]
    · have := ih h.2
      simpa [countPair, List.countP_cons, hm] using this

/-- Operation `insertLikeRow` preserves the constraint: either the pair already
exists and the table is unchanged, or the appended row conflicts with
no existing row. -/
theorem pairUnique_insertLikeRow {likes : List Like} (pid : Nat)
    (uid ts : String) (h : PairUnique likes) :
    PairUnique (insertLikeRow likes pid uid ts) := by
  unfold insertLikeRow
  split
  · exact h
  · rename_i hnot
    rw [Bool.not_eq_true, likeRowExists_eq_false_iff] at hnot
    unfold PairUnique
    rw [List.pairwise_append]
    refine ⟨h, List.pairwise_singleton _ _, ?_⟩
    intro a ha b hb
    simp only [List.mem_singleton] at hb
    subst hb
    intro hcontra
    exact hnot a ha hcontra.1 hcontra.2

/-- Operation `deleteLikeRows` preserves the constraint. -/
theorem pairUnique_deleteLikeRows {likes : List Like} (pid : Nat)
    (uid : String) (h : PairUnique likes) :
    PairUnique (deleteLikeRows likes pid uid) :=
  List.Pairwise.sublist (List.filter_sublist likes) h

/-- One successful `post_like_api` call preserves the constraint. -/
theorem pairUnique_post_like_api {s : Store} {slug now : String}
    {formAction anonUserId : Option String} {s1 : Store}
    {r : LikeResponse} (h : PairUnique s.likes)
    (hok : post_like_api s slug formAction anonUserId now = .ok (s1, r)) :
    PairUnique s1.likes := by
  unfold post_like_api at hok
  split at hok
  · exact absurd hok (by simp)
  · split at hok
    · exact absurd hok (by simp)
    · split at hok
      · exact absurd hok (by simp)
      · split at hok
        · injection hok with hok
          injection hok with hs hr
          subst hs
          exact pairUnique_insertLikeRow _ _ _ h
        · split at hok
          · injection hok with hok
            injection hok with hs hr
            subst hs
            exact pairUnique_deleteLikeRows _ _ h
          · exact absurd hok (by simp)

/-- One request (successful or aborted) preserves the constraint. -/
theorem pairUnique_storeAfterLike {s : Store} (op : ToggleOp)
    (h : PairUnique s.likes) : PairUnique (storeAfterLike s op).likes := by
  unfold storeAfterLike
  split
  · rename_i s1 r heq
    exact pairUnique_post_like_api h heq
  · exact h

/-- Any sequence of requests preserves the constraint. -/
theorem pairUnique_runToggles {s : Store} (ops : List ToggleOp)
    (h : PairUnique s.likes) : PairUnique (runToggles s ops).likes := by
  induction ops generalizing s with
  | nil => exact h
  | cons op rest ih => exact ih (pairUnique_storeAfterLike op h)

/-! Evaluation lemmas for the endpoint. -/

theorem normalizeAction_some_like : normalizeAction (some "like") = "like" := by
  decide

theorem normalizeAction_some_unlike :
    normalizeAction (some "unlike") = "unlike" := by decide

theorem normalizeAction_some_toggle :
    normalizeAction (some "toggle") = "toggle" := by decide

theorem normalizeAction_none : normalizeAction none = "toggle" := by decide

theorem effectiveAction_some_like (likes : List Like) (pid : Nat)
    (uid : String) : effectiveAction likes pid uid (some "like") = "like" := by
  simp [effectiveAction, normalizeAction_some_like]

theorem effectiveAction_some_unlike (likes : List Like) (pid : Nat)
    (uid : String) :
    effectiveAction likes pid uid (some "unlike") = "unlike" := by
  simp [effectiveAction, normalizeAction_some_unlike]

theorem effectiveAction_some_toggle (likes : List Like) (pid : Nat)
    (uid : String) :
    effectiveAction likes pid uid (some "toggle") =
      (if likeRowExists likes pid uid then "unlike" else "like") := by
  simp [effectiveAction, normalizeAction_some_toggle]

theorem effectiveAction_none (likes : List Like) (pid : Nat)
    (uid : String) :
    effectiveAction likes pid uid none =
      (if likeRowExists likes pid uid then "unlike" else "like") := by
  simp [effectiveAction, normalizeAction_none]

/-- Reduction of one call whose effective action is `like`. -/
theorem post_like_api_like_branch {s : Store} {slug : String} {p : Post}
    {formAction : Option String} {uid now : String}
    (hfind : findPostBySlug s.posts slug = some p) (huid : uid ≠ "")
    (heff : effectiveAction s.likes p.id uid formAction = "like") :
    post_like_api s slug formAction (some uid) now =
      .ok ({ s with likes := insertLikeRow s.likes p.id uid now },
        ⟨true, countLikes (insertLikeRow s.likes p.id uid now) p.id⟩) := by
  unfold post_like_api
  rw [hfind]
  simp [huid, heff]

/-- Reduction of one call whose effective action is `unlike`. -/
theorem post_like_api_unlike_branch {s : Store} {slug : String} {p : Post}
    {formAction : Option String} {uid now : String}
    (hfind : findPostBySlug s.posts slug = some p) (huid : uid ≠ "")
    (heff : effectiveAction s.likes p.id uid formAction = "unlike") :
    post_like_api s slug formAction (some uid) now =
      .ok ({ s with likes := deleteLikeRows s.likes p.id uid },
        ⟨false, countLikes (deleteLikeRows s.likes p.id uid) p.id⟩) := by
  unfold post_like_api
  rw [hfind]
  have : effectiveAction s.likes p.id uid formAction ≠ "like" := by
    rw [heff]; decide
  simp [huid, heff, this]

theorem likeRowExists_insertLikeRow_self (likes : List Like) (pid : Nat)
    (uid ts : String) :
    likeRowExists (insertLikeRow likes pid uid ts) pid uid = true := by
  unfold insertLikeRow
  split
  · assumption
  · simp [likeRowExists]

theorem likeRowExists_deleteLikeRows_self (likes : List Like) (pid : Nat)
    (uid : String) :
    likeRowExists (deleteLikeRows likes pid uid) pid uid = false := by
  rw [likeRowExists_eq_false_iff]
  intro l hl hpid
  rw [deleteLikeRows, List.mem_filter] at hl
  have h2 := hl.2
  simp only [Bool.not_eq_true', Bool.and_eq_false_iff,
    beq_eq_false_iff_ne, ne_eq] at h2
  rcases h2 with h | h
  · exact absurd hpid h
  · exact h

theorem insertLikeRow_of_not_exists {likes : List Like} {pid : Nat}
    {uid : String} (ts : String)
    (hnot : likeRowExists likes pid uid = false) :
    insertLikeRow likes pid uid ts = likes ++ [⟨pid, uid, ts⟩] := by
  unfold insertLikeRow
  rw [hnot]
  simp

/-! Claim theorems. -/

/-- C1: for every post identifier and visitor identifier, after any
sequence of ToggleLike operations (like, unlike, or toggle, in any
order and number), at most one Like row exists for the pair
`(post_id, visitor_id)` in the store. -/
theorem c1_pair_unique_after_any_sequence (s : Store) (ops : List ToggleOp)
    (h : PairUnique s.likes) (pid : Nat) (uid : String) :
    countPair (runToggles s ops).likes pid uid ≤ 1 :=
  countPair_le_one pid uid (pairUnique_runToggles ops h)

theorem c1_pair_unique_after_any_sequence_witness :
    PairUnique (Store.mk [⟨1, "welcome", true⟩] []).likes ∧
      countPair (runToggles (Store.mk [⟨1, "welcome", true⟩] [])
        [⟨"welcome", some "like", some "visA", "t1"⟩,
         ⟨"welcome", some "like", some "visA", "t2"⟩,
         ⟨"welcome", none, some "visB", "t3"⟩,
         ⟨"welcome", some "toggle", some "visA", "t4"⟩,
         ⟨"welcome", some "unlike", some "visB", "t5"⟩]).likes 1 "visA" ≤ 1 :=
  ⟨by decide,
    c1_pair_unique_after_any_sequence _ _ (by decide) 1 "visA"⟩

/-- C2: the explicit actions are idempotent: for every existing
post and every visitor, calling ToggleLike with action `"like"` twice
in sequence returns `liked = true` both times and the Like row count
for the pair never exceeds 1; calling ToggleLike with action
`"unlike"` when the visitor has no existing Like returns
`liked = false` and raises no error. -/
theorem c2_like_unlike_idempotent (s : Store) (slug : String) (p : Post)
    (uid now1 now2 : String)
    (hfind : findPostBySlug s.posts slug = some p) (huid : uid ≠ "")
    (huniq : PairUnique s.likes) :
    (∃ s1 r1 s2 r2,
      post_like_api s slug (some "like") (some uid) now1 = .ok (s1, r1) ∧
      r1.liked = true ∧
      post_like_api s1 slug (some "like") (some uid) now2 = .ok (s2, r2) ∧
      r2.liked = true ∧
      countPair s1.likes p.id uid ≤ 1 ∧ countPair s2.likes p.id uid ≤ 1) ∧
    (likeRowExists s.likes p.id uid = false →
      ∃ s3 r3,
        post_like_api s slug (some "unlike") (some uid) now1 = .ok (s3, r3) ∧
        r3.liked = false) := by
  constructor
  · have h1 := @post_like_api_like_branch s slug p (some "like") uid now1
      hfind huid (effectiveAction_some_like s.likes p.id uid)
    set likes1 := insertLikeRow s.likes p.id uid now1 with hlikes1
    have huniq1 : PairUnique likes1 := pairUnique_insertLikeRow _ _ _ huniq
    have h2 := @post_like_api_like_branch { s with likes := likes1 }
      slug p (some "like") uid now2
      hfind huid (effectiveAction_some_like likes1 p.id uid)
    refine ⟨_, _, _, _, h1, rfl, h2, rfl, ?_, ?_⟩
    · exact countPair_le_one _ _ huniq1
    · exact countPair_le_one _ _ (pairUnique_insertLikeRow _ _ _ huniq1)
  · intro hnot
    have h3 := @post_like_api_unlike_branch s slug p (some "unlike") uid
      now1 hfind huid (effectiveAction_some_unlike s.likes p.id uid)
    exact ⟨_, _, h3, rfl⟩

theorem c2_like_unlike_idempotent_witness :
    (findPostBySlug [⟨1, "welcome", true⟩] "welcome" =
        some ⟨1, "welcome", true⟩ ∧
      ("visA" : String) ≠ "" ∧
      PairUnique (Store.mk [⟨1, "welcome", true⟩] []).likes) ∧
    ((∃ s1 r1 s2 r2,
      post_like_api (Store.mk [⟨1, "welcome", true⟩] []) "welcome"
          (some "like") (some "visA") "t1" = .ok (s1, r1) ∧
      r1.liked = true ∧
      post_like_api s1 "welcome" (some "like") (some "visA") "t2" =
          .ok (s2, r2) ∧
      r2.liked = true ∧
      countPair s1.likes 1 "visA" ≤ 1 ∧ countPair s2.likes 1 "visA" ≤ 1) ∧
    (likeRowExists (Store.mk [⟨1, "welcome", true⟩] []).likes 1 "visA" =
        false →
      ∃ s3 r3,
        post_like_api (Store.mk [⟨1, "welcome", true⟩] []) "welcome"
            (some "unlike") (some "visA") "t1" = .ok (s3, r3) ∧
        r3.liked = false)) :=
  ⟨⟨by decide, by decide, by decide⟩,
    c2_like_unlike_idempotent (Store.mk [⟨1, "welcome", true⟩] [])
      "welcome" ⟨1, "welcome", true⟩ "visA" "t1" "t2"
      (by decide) (by decide) (by decide)⟩

/-- C3: toggle is an involution on the per-pair liked state: for
every existing post and visitor starting from the not-liked state,
calling ToggleLike with action `"toggle"` returns `liked = true`, a
second toggle call returns `liked = false`, and a third returns
`liked = true` again. -/
theorem c3_toggle_involution (s : Store) (slug : String) (p : Post)
    (uid now1 now2 now3 : String)
    (hfind : findPostBySlug s.posts slug = some p) (huid : uid ≠ "")
    (hnot : likeRowExists s.likes p.id uid = false) :
    ∃ s1 r1 s2 r2 s3 r3,
      post_like_api s slug (some "toggle") (some uid) now1 = .ok (s1, r1) ∧
      r1.liked = true ∧
      post_like_api s1 slug (some "toggle") (some uid) now2 = .ok (s2, r2) ∧
      r2.liked = false ∧
      post_like_api s2 slug (some "toggle") (some uid) now3 = .ok (s3, r3) ∧
      r3.liked = true := by
  have heff1 : effectiveAction s.likes p.id uid (some "toggle") = "like" := by
    rw [effectiveAction_some_toggle, hnot]
    simp
  have h1 := @post_like_api_like_branch s slug p (some "toggle") uid now1
    hfind huid heff1
  set likes1 := insertLikeRow s.likes p.id uid now1 with hlikes1
  have hex1 : likeRowExists likes1 p.id uid = true :=
    likeRowExists_insertLikeRow_self _ _ _ _
  have heff2 : effectiveAction likes1 p.id uid (some "toggle") = "unlike" := by
    rw [effectiveAction_some_toggle, hex1]
    simp
  have h2 := @post_like_api_unlike_branch { s with likes := likes1 }
    slug p (some "toggle") uid now2 hfind huid heff2
  set likes2 := deleteLikeRows likes1 p.id uid with hlikes2
  have hex2 : likeRowExists likes2 p.id uid = false :=
    likeRowExists_deleteLikeRows_self _ _ _
  have heff3 : effectiveAction likes2 p.id uid (some "toggle") = "like" := by
    rw [effectiveAction_some_toggle, hex2]
    simp
  have h3 := @post_like_api_like_branch { s with likes := likes2 }
    slug p (some "toggle") uid now3 hfind huid heff3
  exact ⟨_, _, _, _, _, _, h1, rfl, h2, rfl, h3, rfl⟩

theorem c3_toggle_involution_witness :
    (findPostBySlug [⟨1, "welcome", true⟩] "welcome" =
        some ⟨1, "welcome", true⟩ ∧
      ("visA" : String) ≠ "" ∧
      likeRowExists (Store.mk [⟨1, "welcome", true⟩] []).likes 1 "visA" =
        false) ∧
    (∃ s1 r1 s2 r2 s3 r3,
      post_like_api (Store.mk [⟨1, "welcome", true⟩] []) "welcome"
          (some "toggle") (some "visA") "t1" = .ok (s1, r1) ∧
      r1.liked = true ∧
      post_like_api s1 "welcome" (some "toggle") (some "visA") "t2" =
          .ok (s2, r2) ∧
      r2.liked = false ∧
      post_like_api s2 "welcome" (some "toggle") (some "visA") "t3" =
          .ok (s3, r3) ∧
      r3.liked = true) :=
  ⟨⟨by decide, by decide, by decide⟩,
    c3_toggle_involution (Store.mk [⟨1, "welcome", true⟩] [])
      "welcome" ⟨1, "welcome", true⟩ "visA" "t1" "t2" "t3"
      (by decide) (by decide) (by decide)⟩

/-! Identity assigner lemmas. -/

theorem b64urlEncode_length (l : List Nat) :
    (b64urlEncode l).length = (4 * l.length + 2) / 3 := by
  induction l using b64urlEncode.induct <;>
    first
      | (simp [b64urlEncode, *]; omega)
      | simp [b64urlEncode, *]

theorem token_urlsafe_length (bytes : List Nat) :
    (token_urlsafe bytes).length = (4 * bytes.length + 2) / 3 := by
  have : (token_urlsafe bytes).length = (b64urlEncode bytes).length := rfl
  rw [this, b64urlEncode_length]

theorem token_urlsafe_ne_empty {bytes : List Nat}
    (hlen : bytes.length = 16) : token_urlsafe bytes ≠ "" := by
  intro hcontra
  have h := congrArg String.length hcontra
  rw [token_urlsafe_length, hlen] at h
  simp at h

/-- The identity assigner always yields a non-empty visitor id when the
random draw has the 16 bytes `before_request` requests. -/
theorem anonUserId_ne_empty (cookieGraUid : Option String)
    (randBytes : List Nat) (hlen : randBytes.length = 16) :
    (before_request cookieGraUid randBytes).anonUserId ≠ "" := by
  by_cases h : cookieGraUid.getD "" = ""
  · simp only [before_request, if_pos h]
    exact token_urlsafe_ne_empty hlen
  · simp only [before_request, if_neg h]
    exact h

/-- The invalid-action branch is reached exactly when the normalized
action is none of the three recognized values. -/
theorem eff_invalid_iff_norm_not_mem (likes : List Like) (pid : Nat)
    (uid : String) (formAction : Option String) :
    (effectiveAction likes pid uid formAction ≠ "like" ∧
      effectiveAction likes pid uid formAction ≠ "unlike") ↔
      normalizeAction formAction ∉
        (["like", "unlike", "toggle"] : List String) := by
  by_cases hn : normalizeAction formAction = "toggle"
  · refine iff_of_false ?_ ?_
    · cases hex : likeRowExists likes pid uid
      · intro h
        exact h.1 (by simp [effectiveAction, hn, hex])
      · intro h
        exact h.2 (by simp [effectiveAction, hn, hex])
    · simp [hn]
  · have heq : effectiveAction likes pid uid formAction =
        normalizeAction formAction := by
      simp [effectiveAction, hn]
    rw [heq]
    simp only [List.mem_cons, List.not_mem_nil, or_false]
    constructor
    · intro h hmem
      rcases hmem with hm | hm | hm
      · exact h.1 hm
      · exact h.2 hm
      · exact hn hm
    · intro h
      exact ⟨fun hm => h (.inl hm), fun hm => h (.inr (.inl hm))⟩

theorem norm_mem_of_eff_like_or_unlike (likes : List Like) (pid : Nat)
    (uid : String) (formAction : Option String)
    (h : effectiveAction likes pid uid formAction = "like" ∨
      effectiveAction likes pid uid formAction = "unlike") :
    normalizeAction formAction ∈
      (["like", "unlike", "toggle"] : List String) := by
  by_contra hmem
  rcases (eff_invalid_iff_norm_not_mem likes pid uid formAction).mpr hmem
    with ⟨h1, h2⟩
  rcases h with h | h
  · exact h1 h
  · exact h2 h

/-- C4: error atomicity.  For every request, ToggleLike fails with
NotFound (404) exactly when the slug resolves to no post and with
InvalidArgument (400) exactly when the normalized action is not one of
the three recognized values; these are the only error conditions of the
full request pipeline, each is reported to the caller, and in either
error case the Like table is left completely unchanged. -/
theorem c4_error_atomicity (s : Store) (slug : String)
    (cookieGraUid : Option String) (randBytes : List Nat)
    (formAction : Option String) (isSecure : Bool) (now : String)
    (hlen : randBytes.length = 16) :
    ((handle_like_request s slug cookieGraUid randBytes formAction
        isSecure now).1 = .error .notFound ↔
      findPostBySlug s.posts slug = none) ∧
    ((handle_like_request s slug cookieGraUid randBytes formAction
        isSecure now).1 = .error .invalidAction ↔
      ((∃ p, findPostBySlug s.posts slug = some p) ∧
        normalizeAction formAction ∉
          (["like", "unlike", "toggle"] : List String))) ∧
    (∀ e, (handle_like_request s slug cookieGraUid randBytes formAction
        isSecure now).1 = .error e →
      (e = .notFound ∨ e = .invalidAction) ∧
        likesAfterRequest s slug cookieGraUid randBytes formAction
          isSecure now = s.likes) := by
  have huid : (before_request cookieGraUid randBytes).anonUserId ≠ "" :=
    anonUserId_ne_empty cookieGraUid randBytes hlen
  have hapi : (handle_like_request s slug cookieGraUid randBytes formAction
      isSecure now).1 =
      post_like_api s slug formAction
        (some (before_request cookieGraUid randBytes).anonUserId) now := rfl
  have hobs : ∀ e, post_like_api s slug formAction
        (some (before_request cookieGraUid randBytes).anonUserId) now =
        .error e →
      likesAfterRequest s slug cookieGraUid randBytes formAction
        isSecure now = s.likes := by
    intro e he
    unfold likesAfterRequest
    rw [hapi, he]
  rw [hapi]
  cases hfind : findPostBySlug s.posts slug with
  | none =>
    have hres : post_like_api s slug formAction
        (some (before_request cookieGraUid randBytes).anonUserId) now =
        .error .notFound := by
      unfold post_like_api
      rw [hfind]
    refine ⟨by simp [hres], ?_, ?_⟩
    · rw [hres]
      simp [hfind]
    · intro e he
      rw [hres] at he
      injection he with he
      exact ⟨.inl he.symm, hobs e (by rw [← he]; exact hres)⟩
  | some p =>
    by_cases hlike : effectiveAction s.likes p.id
        (before_request cookieGraUid randBytes).anonUserId formAction =
        "like"
    · have hres := @post_like_api_like_branch s slug p formAction
        (before_request cookieGraUid randBytes).anonUserId now hfind huid
        hlike
      have hnorm := norm_mem_of_eff_like_or_unlike _ _ _ _ (.inl hlike)
      refine ⟨by simp [hres], by simp [hres, hnorm], ?_⟩
      · intro e he
        rw [hres] at he
        exact absurd he (by simp)
    · by_cases hunlike : effectiveAction s.likes p.id
          (before_request cookieGraUid randBytes).anonUserId formAction =
          "unlike"
      · have hres := @post_like_api_unlike_branch s slug p formAction
          (before_request cookieGraUid randBytes).anonUserId now hfind huid
          hunlike
        have hnorm := norm_mem_of_eff_like_or_unlike _ _ _ _ (.inr hunlike)
        refine ⟨by simp [hres], by simp [hres, hnorm], ?_⟩
        · intro e he
          rw [hres] at he
          exact absurd he (by simp)
      · have hres : post_like_api s slug formAction
            (some (before_request cookieGraUid randBytes).anonUserId) now =
            .error .invalidAction := by
          unfold post_like_api
          rw [hfind]
          simp [huid, hlike, hunlike]
        have hnorm := (eff_invalid_iff_norm_not_mem _ _ _ _).mp
          ⟨hlike, hunlike⟩
        refine ⟨by simp [hres], ?_, ?_⟩
        · rw [hres]
          exact ⟨fun _ => ⟨⟨p, rfl⟩, hnorm⟩, fun _ => rfl⟩
        · intro e he
          rw [hres] at he
          injection he with he
          exact ⟨.inr he.symm, hobs e (by rw [← he]; exact hres)⟩

theorem c4_error_atomicity_witness :
    (List.length [7, 7, 7, 7, 7, 7, 7, 7, 7, 7, 7, 7, 7, 7, 7, 7] = 16) ∧
    (((handle_like_request (Store.mk [⟨1, "welcome", true⟩] []) "nope"
        none [7, 7, 7, 7, 7, 7, 7, 7, 7, 7, 7, 7, 7, 7, 7, 7]
        none false "t").1 = .error .notFound ↔
      findPostBySlug [⟨1, "welcome", true⟩] "nope" = none) ∧
    (((handle_like_request (Store.mk [⟨1, "welcome", true⟩] []) "nope"
        none [7, 7, 7, 7, 7, 7, 7, 7, 7, 7, 7, 7, 7, 7, 7, 7]
        none false "t").1 = .error .invalidAction ↔
      ((∃ p, findPostBySlug [⟨1, "welcome", true⟩] "nope" = some p) ∧
        normalizeAction none ∉
          (["like", "unlike", "toggle"] : List String))) ∧
    (∀ e, (handle_like_request (Store.mk [⟨1, "welcome", true⟩] []) "nope"
        none [7, 7, 7, 7, 7, 7, 7, 7, 7, 7, 7, 7, 7, 7, 7, 7]
        none false "t").1 = .error e →
      (e = .notFound ∨ e = .invalidAction) ∧
        likesAfterRequest (Store.mk [⟨1, "welcome", true⟩] []) "nope"
          none [7, 7, 7, 7, 7, 7, 7, 7, 7, 7, 7, 7, 7, 7, 7, 7]
          none false "t" =
          (Store.mk [⟨1, "welcome", true⟩] []).likes))) :=
  ⟨by decide,
    c4_error_atomicity (Store.mk [⟨1, "welcome", true⟩] []) "nope"
      none [7, 7, 7, 7, 7, 7, 7, 7, 7, 7, 7, 7, 7, 7, 7, 7]
      none false "t" (by decide)⟩

theorem b64urlChar_urlsafe {n : Nat} (h : n < 64) :
    isUrlSafeChar (b64urlChar n) = true := by
  interval_cases n <;> decide

theorem b64urlEncode_chars {l : List Nat} (hb : ∀ b ∈ l, b < 256) :
    ∀ c ∈ b64urlEncode l, isUrlSafeChar c = true := by
  induction l using b64urlEncode.induct with
  | case1 => simp [b64urlEncode]
  | case2 b1 =>
    intro c hc
    have h1 := hb b1 (by simp)
    simp only [b64urlEncode, List.mem_cons, List.not_mem_nil,
      or_false] at hc
    rcases hc with rfl | rfl
    · exact b64urlChar_urlsafe (by omega)
    · exact b64urlChar_urlsafe (by omega)
  | case3 b1 b2 =>
    intro c hc
    have h1 := hb b1 (by simp)
    have h2 := hb b2 (by simp)
    simp only [b64urlEncode, List.mem_cons, List.not_mem_nil,
      or_false] at hc
    rcases hc with rfl | rfl | rfl
    · exact b64urlChar_urlsafe (by omega)
    · exact b64urlChar_urlsafe (by omega)
    · exact b64urlChar_urlsafe (by omega)
  | case4 b1 b2 b3 rest ih =>
    intro c hc
    have h1 := hb b1 (by simp)
    have h2 := hb b2 (by simp)
    have h3 := hb b3 (by simp)
    simp only [b64urlEncode, List.mem_cons] at hc
    rcases hc with rfl | rfl | rfl | rfl | hc
    · exact b64urlChar_urlsafe (by omega)
    · exact b64urlChar_urlsafe (by omega)
    · exact b64urlChar_urlsafe (by omega)
    · exact b64urlChar_urlsafe (by omega)
    · exact ih (fun b hbm => hb b (by simp [hbm])) c hc

/-- C5: identity cookie contract.  A request whose cookie set lacks
a non-empty `gra_uid` cookie gets a fresh identifier generated from the
16 random bytes drawn from the secure source, URL-safe encoded (22
URL-safe characters), and the response sets the `gra_uid` cookie with
HttpOnly, SameSite=Lax, Secure iff the transport was secure, and max
age exactly 63,072,000 seconds; a request already carrying a non-empty
`gra_uid` uses its value unchanged and no cookie is set. -/
theorem c5_identity_cookie_contract (cookieGraUid : Option String)
    (randBytes : List Nat) (isSecure : Bool)
    (hlen : randBytes.length = 16) (hbytes : ∀ b ∈ randBytes, b < 256) :
    ((cookieGraUid = none ∨ cookieGraUid = some "") →
      before_request cookieGraUid randBytes =
        ⟨token_urlsafe randBytes, some (token_urlsafe randBytes)⟩ ∧
      persist_anon_user_id
          (before_request cookieGraUid randBytes).setGraUid isSecure =
        some ⟨"gra_uid", token_urlsafe randBytes, 63072000, true, "Lax",
          isSecure⟩ ∧
      (token_urlsafe randBytes).length = 22 ∧
      ∀ c ∈ (token_urlsafe randBytes).data, isUrlSafeChar c = true) ∧
    (∀ v, cookieGraUid = some v → v ≠ "" →
      before_request cookieGraUid randBytes = ⟨v, none⟩ ∧
      persist_anon_user_id
          (before_request cookieGraUid randBytes).setGraUid isSecure =
        none) := by
  constructor
  · intro hempty
    have hbr : before_request cookieGraUid randBytes =
        ⟨token_urlsafe randBytes, some (token_urlsafe randBytes)⟩ := by
      rcases hempty with rfl | rfl <;> rfl
    refine ⟨hbr, ?_, ?_, ?_⟩
    · rw [hbr]
      rfl
    · rw [token_urlsafe_length, hlen]
    · exact b64urlEncode_chars hbytes
  · intro v hv hne
    subst hv
    have hbr : before_request (some v) randBytes = ⟨v, none⟩ := by
      simp only [before_request, Option.getD_some, if_neg hne]
    exact ⟨hbr, by rw [hbr]; rfl⟩

theorem c5_identity_cookie_contract_witness :
    (List.length [0, 1, 2, 3, 250, 251, 252, 253, 254, 255, 10, 11, 12,
        13, 14, 15] = 16 ∧
      ∀ b ∈ [0, 1, 2, 3, 250, 251, 252, 253, 254, 255, 10, 11, 12, 13,
        14, 15], b < 256) ∧
    ((((none : Option String) = none ∨ (none : Option String) = some "") →
      before_request none [0, 1, 2, 3, 250, 251, 252, 253, 254, 255, 10,
          11, 12, 13, 14, 15] =
        ⟨token_urlsafe [0, 1, 2, 3, 250, 251, 252, 253, 254, 255, 10, 11,
          12, 13, 14, 15],
         some (token_urlsafe [0, 1, 2, 3, 250, 251, 252, 253, 254, 255,
          10, 11, 12, 13, 14, 15])⟩ ∧
      persist_anon_user_id
          (before_request none [0, 1, 2, 3, 250, 251, 252, 253, 254, 255,
            10, 11, 12, 13, 14, 15]).setGraUid true =
        some ⟨"gra_uid", token_urlsafe [0, 1, 2, 3, 250, 251, 252, 253,
          254, 255, 10, 11, 12, 13, 14, 15], 63072000, true, "Lax",
          true⟩ ∧
      (token_urlsafe [0, 1, 2, 3, 250, 251, 252, 253, 254, 255, 10, 11,
        12, 13, 14, 15]).length = 22 ∧
      ∀ c ∈ (token_urlsafe [0, 1, 2, 3, 250, 251, 252, 253, 254, 255, 10,
        11, 12, 13, 14, 15]).data, isUrlSafeChar c = true) ∧
    (∀ v, (none : Option String) = some v → v ≠ "" →
      before_request none [0, 1, 2, 3, 250, 251, 252, 253, 254, 255, 10,
          11, 12, 13, 14, 15] = ⟨v, none⟩ ∧
      persist_anon_user_id
          (before_request none [0, 1, 2, 3, 250, 251, 252, 253, 254, 255,
            10, 11, 12, 13, 14, 15]).setGraUid true =
        none)) :=
  ⟨⟨by decide, by decide⟩,
    c5_identity_cookie_contract none
      [0, 1, 2, 3, 250, 251, 252, 253, 254, 255, 10, 11, 12, 13, 14, 15]
      true (by decide) (by decide)⟩

/-- C6: for every inbound request, the identity assigner runs
before the route handler and guarantees a non-empty visitor identifier,
so the like endpoint's missing-visitor-identifier 400 branch is
unreachable. -/
theorem c6_missing_user_branch_unreachable (s : Store) (slug : String)
    (cookieGraUid : Option String) (randBytes : List Nat)
    (formAction : Option String) (isSecure : Bool) (now : String)
    (hlen : randBytes.length = 16) :
    (before_request cookieGraUid randBytes).anonUserId ≠ "" ∧
    (handle_like_request s slug cookieGraUid randBytes formAction
      isSecure now).1 ≠ .error .missingUserId := by
  have huid := anonUserId_ne_empty cookieGraUid randBytes hlen
  refine ⟨huid, ?_⟩
  have hapi : (handle_like_request s slug cookieGraUid randBytes
      formAction isSecure now).1 =
      post_like_api s slug formAction
        (some (before_request cookieGraUid randBytes).anonUserId) now := rfl
  rw [hapi]
  unfold post_like_api
  cases hfind : findPostBySlug s.posts slug with
  | none => simp
  | some p =>
    simp only [huid, if_false]
    split
    · simp
    · split <;> simp

theorem c6_missing_user_branch_unreachable_witness :
    (List.length [9, 9, 9, 9, 9, 9, 9, 9, 9, 9, 9, 9, 9, 9, 9, 9] = 16) ∧
    ((before_request (some "") [9, 9, 9, 9, 9, 9, 9, 9, 9, 9, 9, 9, 9, 9,
        9, 9]).anonUserId ≠ "" ∧
    (handle_like_request (Store.mk [⟨1, "welcome", true⟩] []) "welcome"
      (some "") [9, 9, 9, 9, 9, 9, 9, 9, 9, 9, 9, 9, 9, 9, 9, 9]
      (some "explode") false "t").1 ≠ .error .missingUserId) :=
  ⟨by decide,
    c6_missing_user_branch_unreachable (Store.mk [⟨1, "welcome", true⟩] [])
      "welcome" (some "") [9, 9, 9, 9, 9, 9, 9, 9, 9, 9, 9, 9, 9, 9, 9, 9]
      (some "explode") false "t" (by decide)⟩

/-- C7: on every successful ToggleLike the service returns
`{liked, count}` where `liked` is true iff the effective action after
toggle resolution was `like`, and `count` is a fresh count of all Like
rows for the post in the store as it stands after the mutation, a
natural number that is at least 0. -/
theorem c7_response_shape (s : Store) (slug : String) (p : Post)
    (formAction : Option String) (uid now : String) (s1 : Store)
    (r : LikeResponse)
    (hfind : findPostBySlug s.posts slug = some p) (huid : uid ≠ "")
    (hok : post_like_api s slug formAction (some uid) now = .ok (s1, r)) :
    (r.liked = true ↔
      effectiveAction s.likes p.id uid formAction = "like") ∧
    r.count = countLikes s1.likes p.id ∧ 0 ≤ r.count := by
  by_cases hlike : effectiveAction s.likes p.id uid formAction = "like"
  · rw [post_like_api_like_branch hfind huid hlike] at hok
    injection hok with hok
    cases hok
    exact ⟨by simp [hlike], rfl, Nat.zero_le _⟩
  · by_cases hunlike : effectiveAction s.likes p.id uid formAction =
        "unlike"
    · rw [post_like_api_unlike_branch hfind huid hunlike] at hok
      injection hok with hok
      cases hok
      exact ⟨by simp [hlike], rfl, Nat.zero_le _⟩
    · have hres : post_like_api s slug formAction (some uid) now =
          .error .invalidAction := by
        unfold post_like_api
        rw [hfind]
        simp [huid, hlike, hunlike]
      rw [hres] at hok
      exact absurd hok (by simp)

theorem c7_response_shape_witness :
    (findPostBySlug [⟨1, "welcome", true⟩] "welcome" =
        some ⟨1, "welcome", true⟩ ∧
      ("visA" : String) ≠ "" ∧
      post_like_api (Store.mk [⟨1, "welcome", true⟩] []) "welcome"
        (some "like") (some "visA") "t1" =
        .ok (Store.mk [⟨1, "welcome", true⟩] [⟨1, "visA", "t1"⟩],
          ⟨true, 1⟩)) ∧
    ((LikeResponse.mk true 1).liked = true ↔
      effectiveAction (Store.mk [⟨1, "welcome", true⟩] []).likes 1 "visA"
        (some "like") = "like") ∧
    (LikeResponse.mk true 1).count =
      countLikes (Store.mk [⟨1, "welcome", true⟩]
        [⟨1, "visA", "t1"⟩]).likes 1 ∧
    0 ≤ (LikeResponse.mk true 1).count :=
  ⟨⟨by decide, by decide, rfl⟩,
    c7_response_shape (Store.mk [⟨1, "welcome", true⟩] []) "welcome"
      ⟨1, "welcome", true⟩ (some "like") "visA" "t1"
      (Store.mk [⟨1, "welcome", true⟩] [⟨1, "visA", "t1"⟩]) ⟨true, 1⟩
      (by decide) (by decide) rfl⟩

theorem countLikes_append_single (likes : List Like) (pid : Nat)
    (uid ts : String) :
    countLikes (likes ++ [(⟨pid, uid, ts⟩ : Like)]) pid =
      countLikes likes pid + 1 := by
  simp [countLikes, List.countP_append]

theorem likeRowExists_append (likes : List Like) (x : Like) (pid : Nat)
    (uid : String) :
    likeRowExists (likes ++ [x]) pid uid =
      (likeRowExists likes pid uid ||
        (x.post_id == pid && x.user_id == uid)) := by
  simp [likeRowExists]

theorem deleteLikeRows_eq_self {likes : List Like} {pid : Nat}
    {uid : String} (h : likeRowExists likes pid uid = false) :
    deleteLikeRows likes pid uid = likes := by
  rw [deleteLikeRows, List.filter_eq_self]
  intro l hl
  rw [likeRowExists_eq_false_iff] at h
  have hne := h l hl
  by_cases hp : l.post_id = pid
  · simp [hp, hne hp]
  · simp [hp]

/-- C8: per-visitor isolation.  For an existing post and two
distinct visitors with no prior like, each visitor's like is recorded
independently (both observe `liked = true`), the count increases by
exactly 1 for each distinct visitor's first like, and the first
visitor's unlike removes only that visitor's row, decreasing the count
by exactly 1 while the second visitor's like row survives. -/
theorem c8_per_visitor_isolation (s : Store) (slug : String) (p : Post)
    (uidA uidB nowA nowB nowC : String)
    (hfind : findPostBySlug s.posts slug = some p)
    (hAB : uidA ≠ uidB) (hA : uidA ≠ "") (hB : uidB ≠ "")
    (hnotA : likeRowExists s.likes p.id uidA = false)
    (hnotB : likeRowExists s.likes p.id uidB = false) :
    ∃ s1 r1 s2 r2 s3 r3,
      post_like_api s slug (some "like") (some uidA) nowA = .ok (s1, r1) ∧
      r1.liked = true ∧ r1.count = countLikes s.likes p.id + 1 ∧
      post_like_api s1 slug (some "like") (some uidB) nowB = .ok (s2, r2) ∧
      r2.liked = true ∧ r2.count = countLikes s.likes p.id + 2 ∧
      post_like_api s2 slug (some "unlike") (some uidA) nowC =
        .ok (s3, r3) ∧
      r3.liked = false ∧ r3.count = countLikes s.likes p.id + 1 ∧
      likeRowExists s3.likes p.id uidB = true := by
  have hBA : uidB ≠ uidA := fun h => hAB h.symm
  -- visitor A's like
  have h1 := @post_like_api_like_branch s slug p (some "like") uidA nowA
    hfind hA (effectiveAction_some_like s.likes p.id uidA)
  have hins1 : insertLikeRow s.likes p.id uidA nowA =
      s.likes ++ [⟨p.id, uidA, nowA⟩] := insertLikeRow_of_not_exists _ hnotA
  rw [hins1] at h1
  have hc1 : countLikes (s.likes ++ [(⟨p.id, uidA, nowA⟩ : Like)]) p.id =
      countLikes s.likes p.id + 1 := countLikes_append_single _ _ _ _
  -- visitor B's like on the store left by A
  have hnotB1 : likeRowExists (s.likes ++ [(⟨p.id, uidA, nowA⟩ : Like)])
      p.id uidB = false := by
    rw [likeRowExists_append, hnotB]
    simp [beq_eq_false_iff_ne.mpr hAB]
  have h2 := @post_like_api_like_branch
    { s with likes := s.likes ++ [⟨p.id, uidA, nowA⟩] }
    slug p (some "like") uidB nowB
    hfind hB (effectiveAction_some_like _ p.id uidB)
  have hins2 : insertLikeRow (s.likes ++ [(⟨p.id, uidA, nowA⟩ : Like)])
      p.id uidB nowB =
      (s.likes ++ [⟨p.id, uidA, nowA⟩]) ++ [⟨p.id, uidB, nowB⟩] :=
    insertLikeRow_of_not_exists _ hnotB1
  rw [hins2] at h2
  have hc2 : countLikes
      ((s.likes ++ [(⟨p.id, uidA, nowA⟩ : Like)]) ++
        [(⟨p.id, uidB, nowB⟩ : Like)]) p.id =
      countLikes s.likes p.id + 2 := by
    rw [countLikes_append_single, hc1]
  -- visitor A's unlike on the store holding both rows
  have h3 := @post_like_api_unlike_branch
    { s with likes :=
      (s.likes ++ [⟨p.id, uidA, nowA⟩]) ++ [⟨p.id, uidB, nowB⟩] }
    slug p (some "unlike") uidA nowC
    hfind hA (effectiveAction_some_unlike _ p.id uidA)
  have hdel : deleteLikeRows
      ((s.likes ++ [(⟨p.id, uidA, nowA⟩ : Like)]) ++
        [(⟨p.id, uidB, nowB⟩ : Like)]) p.id uidA =
      s.likes ++ [⟨p.id, uidB, nowB⟩] := by
    rw [deleteLikeRows, List.filter_append, List.filter_append]
    rw [← deleteLikeRows, deleteLikeRows_eq_self hnotA]
    simp [beq_eq_false_iff_ne.mpr hBA]
  rw [hdel] at h3
  have hc3 : countLikes (s.likes ++ [(⟨p.id, uidB, nowB⟩ : Like)]) p.id =
      countLikes s.likes p.id + 1 := countLikes_append_single _ _ _ _
  have hexB : likeRowExists (s.likes ++ [(⟨p.id, uidB, nowB⟩ : Like)])
      p.id uidB = true := by
    rw [likeRowExists_append]
    simp
  exact ⟨_, _, _, _, _, _, h1, rfl, hc1, h2, rfl, hc2, h3, rfl, hc3, hexB⟩

theorem c8_per_visitor_isolation_witness :
    (findPostBySlug [⟨1, "welcome", true⟩] "welcome" =
        some ⟨1, "welcome", true⟩ ∧
      ("visA" : String) ≠ "visB" ∧ ("visA" : String) ≠ "" ∧
      ("visB" : String) ≠ "" ∧
      likeRowExists (Store.mk [⟨1, "welcome", true⟩] []).likes 1 "visA" =
        false ∧
      likeRowExists (Store.mk [⟨1, "welcome", true⟩] []).likes 1 "visB" =
        false) ∧
    (∃ s1 r1 s2 r2 s3 r3,
      post_like_api (Store.mk [⟨1, "welcome", true⟩] []) "welcome"
        (some "like") (some "visA") "t1" = .ok (s1, r1) ∧
      r1.liked = true ∧
      r1.count = countLikes (Store.mk [⟨1, "welcome", true⟩] []).likes 1
        + 1 ∧
      post_like_api s1 "welcome" (some "like") (some "visB") "t2" =
        .ok (s2, r2) ∧
      r2.liked = true ∧
      r2.count = countLikes (Store.mk [⟨1, "welcome", true⟩] []).likes 1
        + 2 ∧
      post_like_api s2 "welcome" (some "unlike") (some "visA") "t3" =
        .ok (s3, r3) ∧
      r3.liked = false ∧
      r3.count = countLikes (Store.mk [⟨1, "welcome", true⟩] []).likes 1
        + 1 ∧
      likeRowExists s3.likes 1 "visB" = true) :=
  ⟨⟨by decide, by decide, by decide, by decide, by decide, by decide⟩,
    c8_per_visitor_isolation (Store.mk [⟨1, "welcome", true⟩] [])
      "welcome" ⟨1, "welcome", true⟩ "visA" "visB" "t1" "t2" "t3"
      (by decide) (by decide) (by decide) (by decide) (by decide)
      (by decide)⟩

/-- C9: the action parameter is normalized by trimming surrounding
whitespace and lower-casing before matching, so case or whitespace
variants of the three recognized values are accepted and behave
identically to the canonical lowercase action. -/
theorem c9_action_normalization (s : Store) (slug : String)
    (anonUserId : Option String) (now : String) (a : String)
    (hmem : pyLower (pyStrip a) ∈
      (["like", "unlike", "toggle"] : List String)) :
    post_like_api s slug (some a) anonUserId now =
      post_like_api s slug (some (pyLower (pyStrip a))) anonUserId now := by
  have hne : a ≠ "" := by
    intro h
    subst h
    exact absurd hmem (by decide)
  have hnorm_a : normalizeAction (some a) = pyLower (pyStrip a) := by
    simp [normalizeAction, hne]
  simp only [List.mem_cons, List.not_mem_nil, or_false] at hmem
  have hfix : pyLower (pyStrip (pyLower (pyStrip a))) =
      pyLower (pyStrip a) := by
    rcases hmem with h | h | h <;> rw [h] <;> rfl
  have hne2 : pyLower (pyStrip a) ≠ "" := by
    rcases hmem with h | h | h <;> rw [h] <;> decide
  have hnorm_b : normalizeAction (some (pyLower (pyStrip a))) =
      pyLower (pyStrip a) := by
    rw [normalizeAction, if_neg hne2]
    exact hfix
  have hsame : normalizeAction (some a) =
      normalizeAction (some (pyLower (pyStrip a))) := by
    rw [hnorm_a, hnorm_b]
  unfold post_like_api effectiveAction
  rw [hsame]

theorem c9_action_normalization_witness :
    pyLower (pyStrip " unLIKE ") ∈
      (["like", "unlike", "toggle"] : List String) ∧
    post_like_api (Store.mk [⟨1, "welcome", true⟩] []) "welcome"
        (some " unLIKE ") (some "visA") "t1" =
      post_like_api (Store.mk [⟨1, "welcome", true⟩] []) "welcome"
        (some (pyLower (pyStrip " unLIKE "))) (some "visA") "t1" :=
  ⟨by decide,
    c9_action_normalization (Store.mk [⟨1, "welcome", true⟩] [])
      "welcome" (some "visA") "t1" " unLIKE " (by decide)⟩

/-- C10: the like endpoint resolves the post by slug without
checking its published flag: an unpublished post in the store can still
be toggled (the call succeeds and returns liked and count), whereas the
public post page returns 404 for unpublished posts to non-admin
visitors. -/
theorem c10_like_ignores_published (s : Store) (p : Post)
    (uid now : String)
    (hfind : findPostBySlug s.posts p.slug = some p)
    (hpub : p.published = false) (huid : uid ≠ "") :
    (∃ s1 r, post_like_api s p.slug none (some uid) now = .ok (s1, r)) ∧
    post_detail s p.slug false uid = none := by
  constructor
  · by_cases hex : likeRowExists s.likes p.id uid = true
    · have heff : effectiveAction s.likes p.id uid none = "unlike" := by
        rw [effectiveAction_none, hex]
        simp
      exact ⟨_, _, post_like_api_unlike_branch hfind huid heff⟩
    · rw [Bool.not_eq_true] at hex
      have heff : effectiveAction s.likes p.id uid none = "like" := by
        rw [effectiveAction_none, hex]
        simp
      exact ⟨_, _, post_like_api_like_branch hfind huid heff⟩
  · unfold post_detail
    rw [hfind]
    simp [hpub]

theorem c10_like_ignores_published_witness :
    (findPostBySlug [⟨1, "welcome", true⟩, ⟨2, "draft", false⟩] "draft" =
        some ⟨2, "draft", false⟩ ∧
      (Post.mk 2 "draft" false).published = false ∧
      ("visA" : String) ≠ "") ∧
    ((∃ s1 r, post_like_api
        (Store.mk [⟨1, "welcome", true⟩, ⟨2, "draft", false⟩] [])
        "draft" none (some "visA") "t1" = .ok (s1, r)) ∧
    post_detail (Store.mk [⟨1, "welcome", true⟩, ⟨2, "draft", false⟩] [])
      "draft" false "visA" = none) :=
  ⟨⟨by decide, by decide, by decide⟩,
    c10_like_ignores_published
      (Store.mk [⟨1, "welcome", true⟩, ⟨2, "draft", false⟩] [])
      ⟨2, "draft", false⟩ "visA" "t1" (by decide) (by decide) (by decide)⟩

end GRA
